import Mathlib

/-!
Shallow embedding of the adstxt-mcp-server repository: the Transport Client
(src/api/client.ts), the per-tool operations (src/tools/*.ts) and the
call-tool dispatch table (src/index.ts), together with theorems checking the
natural-language specification against this embedding.

Machine conventions: the HTTP layer is modelled by an oracle
`backend : Nat → CallResult α` giving the outcome of the n-th physical
attempt of one logical request; JavaScript `undefined`/missing fields become
`Option`; the JavaScript `||` fallback on strings (which treats the empty
string as absent) is `orElseStr`.
-/

namespace AdstxtMcp

/-- `error.code`/`error.message` of a structured error body
(`response.data.error` in client.ts). -/
structure ErrorBody where
  code : Option String
  message : Option String
  deriving DecidableEq, Repr

/-- The JSON body attached to an HTTP response (`response.data` as seen by
`handleError`); `extra` stands for the remaining passthrough fields. -/
structure ResponseBody where
  error : Option ErrorBody
  extra : String
  deriving DecidableEq, Repr

/-- An HTTP response attached to an axios error (`error.response`). -/
structure AxiosResponse where
  status : Nat
  body : Option ResponseBody
  deriving DecidableEq, Repr

/-- An axios transport error: optional received response, optional
error code string (`ECONNABORTED`, `ETIMEDOUT`, ...), and a message. -/
structure AxiosErr where
  response : Option AxiosResponse
  code : Option String
  message : String
  deriving DecidableEq, Repr

/-- A value thrown inside `ApiClient.get`/`post`/`getRaw`: an axios error,
a non-axios `Error` instance, or some other thrown value. -/
inductive ThrownError where
  | axios (e : AxiosErr)
  | jsError (message : String)
  | nonError
  deriving DecidableEq, Repr

/-- The `details` payload of a normalized `ApiError`. -/
inductive ErrDetails where
  | body (b : Option ResponseBody)
  | timeoutMs (t : Nat)
  deriving DecidableEq, Repr

/-- Normalized error detail (`ApiError` in types/index.ts). -/
structure ApiError where
  code : String
  message : String
  details : Option ErrDetails
  deriving DecidableEq, Repr

/-- The `{ success, data?, error? }` response envelope (`ApiResponse<T>`). -/
structure Envelope (α : Type) where
  success : Bool
  data : Option α
  error : Option ApiError
  deriving DecidableEq, Repr

/-- Outcome of one physical HTTP attempt: the response body on HTTP success,
or the value the transport throws. -/
inductive CallResult (α : Type) where
  | ok (a : α)
  | err (t : ThrownError)
  deriving DecidableEq, Repr

/-- JavaScript `s || d` on an optional string: missing and empty strings both
fall back to the default. -/
def orElseStr (o : Option String) (d : String) : String :=
  match o with
  | some s => if s = "" then d else s
  | none => d

namespace ApiClient

/-- `ApiClient.handleError` (client.ts lines 57-85): normalize a thrown value
into an `ApiError`, with the received-response branch checked first. -/
def handleError (timeoutMs : Nat) : ThrownError → ApiError
  | .axios e =>
    match e.response with
    | some r =>
      { code := orElseStr (r.body.bind fun b => b.error.bind fun eb => eb.code) "SERVER_ERROR"
        message := orElseStr (r.body.bind fun b => b.error.bind fun eb => eb.message) e.message
        details := some (.body r.body) }
    | none =>
      if e.code == some "ECONNABORTED" || e.code == some "ETIMEDOUT" then
        { code := "TIMEOUT", message := "Request timeout", details := some (.timeoutMs timeoutMs) }
      else
        { code := "NETWORK_ERROR", message := e.message, details := none }
  | .jsError msg => { code := "UNKNOWN_ERROR", message := msg, details := none }
  | .nonError => { code := "UNKNOWN_ERROR", message := "Unknown error occurred", details := none }

/-- `ApiClient.shouldRetry` (client.ts lines 45-51). -/
def shouldRetry (e : AxiosErr) : Bool :=
  e.code == some "ECONNABORTED" || e.code == some "ETIMEDOUT" ||
    (match e.response with
     | some r => decide (500 ≤ r.status)
     | none => false)

/-- The retry guard as the response interceptor sees it: only axios errors
carry the fields `shouldRetry` inspects. -/
def shouldRetryThrown : ThrownError → Bool
  | .axios e => shouldRetry e
  | _ => false

/-- The response-interceptor retry loop (client.ts lines 29-42), with the
per-request `__retryCount` made explicit: `attempt` is the index of the
physical attempt just issued (0 for the first), `remaining` is
`retries - attempt`.  Returns the final outcome, the list of awaited backoff
delays in milliseconds (one before each reissue, `2 ^ retryCount * 1000`),
and the list of attempt indexes issued. -/
def retryLoop (backend : Nat → CallResult α) :
    Nat → Nat → CallResult α × List Nat × List Nat
  | 0, attempt =>
    match backend attempt with
    | .ok a => (.ok a, [], [attempt])
    | .err t => (.err t, [], [attempt])
  | remaining + 1, attempt =>
    match backend attempt with
    | .ok a => (.ok a, [], [attempt])
    | .err t =>
      if shouldRetryThrown t then
        let next := retryLoop backend remaining (attempt + 1)
        (next.1, 2 ^ attempt * 1000 :: next.2.1, attempt :: next.2.2)
      else (.err t, [], [attempt])

/-- `ApiClient.get` (client.ts lines 87-97): run one logical request through
the interceptor's retry loop; on success return the backend's envelope
verbatim, on failure catch and return a locally built failure envelope. -/
def get (retries timeoutMs : Nat) (backend : Nat → CallResult (Envelope α)) : Envelope α :=
  match (retryLoop backend retries 0).1 with
  | .ok env => env
  | .err t => { success := false, data := none, error := some (handleError timeoutMs t) }

/-- `ApiClient.post` (client.ts lines 99-109): identical catch shape to `get`
(the posted body is part of the backend oracle). -/
def post (retries timeoutMs : Nat) (backend : Nat → CallResult (Envelope α)) : Envelope α :=
  match (retryLoop backend retries 0).1 with
  | .ok env => env
  | .err t => { success := false, data := none, error := some (handleError timeoutMs t) }

/-- A value caught by a caller of `ApiClient.getRaw`: either a real `Error`
instance, or the plain (non-`Error`) `ApiError` object `getRaw` throws. -/
inductive CaughtValue where
  | errorInstance (message : String)
  | plainApiError (e : ApiError)
  deriving DecidableEq, Repr

/-- `ApiClient.getRaw` (client.ts lines 111-121): returns the raw text body
on success and throws `this.handleError(error)` — a plain object, not an
`Error` instance — on failure. -/
def getRaw (retries timeoutMs : Nat) (backend : Nat → CallResult String) :
    Except CaughtValue String :=
  match (retryLoop backend retries 0).1 with
  | .ok s => .ok s
  | .err t => .error (.plainApiError (handleError timeoutMs t))

end ApiClient

/-! ### Tool operations (src/tools) -/

/-- A body posted by one of the tool operations. -/
inductive PostBody where
  | sellersBatch (seller_ids : List String)
  | domainsBatch (domains : List String)
  | validateQuick (content : String) (checkDuplicates : Bool)
  | optimize (content : String) (publisher_domain : Option String) (level : String)
  deriving DecidableEq, Repr

/-- One Transport Client call issued by a tool operation. -/
inductive ToolCall where
  | get (path : String)
  | post (path : String) (body : PostBody)
  deriving DecidableEq, Repr

/-- Failure of a tool operation: a zod validation throw, or a thrown
`Error` with a message. -/
inductive ToolError where
  | validation (msg : String)
  | thrown (msg : String)
  deriving DecidableEq, Repr

/-- Raw (pre-validation) input of `search_sellers_batch`. -/
structure BatchSearchRaw where
  domain : Option String
  seller_ids : Option (List String)
  deriving DecidableEq, Repr

structure BatchSearchParsed where
  domain : String
  seller_ids : List String
  deriving DecidableEq, Repr

/-- `BatchSearchInputSchema.parse` (sellers.ts lines 24-27): domain a
non-empty string, seller_ids an array of 1 to 100 strings. -/
def parseBatchSearch (r : BatchSearchRaw) : Except String BatchSearchParsed :=
  match r.domain with
  | none => .error "Required"
  | some d =>
    if d = "" then .error "Domain is required"
    else
      match r.seller_ids with
      | none => .error "Required"
      | some ids =>
        if ids.length < 1 then .error "Array must contain at least 1 element(s)"
        else if 100 < ids.length then .error "Maximum 100 seller IDs allowed"
        else .ok { domain := d, seller_ids := ids }

/-- `searchSellersBatch` (sellers.ts lines 71-86), returning the result
together with the list of Transport Client calls issued. -/
def searchSellersBatch (backend : ToolCall → Envelope α) (raw : BatchSearchRaw) :
    Except ToolError (Option α) × List ToolCall :=
  match parseBatchSearch raw with
  | .error m => (.error (.validation m), [])
  | .ok p =>
    let call := ToolCall.post ("/api/v1/sellersjson/" ++ p.domain ++ "/sellers/batch")
      (.sellersBatch p.seller_ids)
    let response := backend call
    if response.success then (.ok response.data, [call])
    else (.error (.thrown (orElseStr (response.error.map ApiError.message) "Batch search failed")),
      [call])

/-- Raw (pre-validation) input of `get_batch_domain_info`. -/
structure BatchDomainRaw where
  domains : Option (List String)
  deriving DecidableEq, Repr

/-- `BatchDomainInfoInputSchema.parse` (domain.ts lines 24-26): domains an
array of 1 to 50 strings. -/
def parseBatchDomainInfo (r : BatchDomainRaw) : Except String (List String) :=
  match r.domains with
  | none => .error "Required"
  | some ds =>
    if ds.length < 1 then .error "Array must contain at least 1 element(s)"
    else if 50 < ds.length then .error "Maximum 50 domains allowed"
    else .ok ds

/-- `getBatchDomainInfo` (domain.ts lines 66-78). -/
def getBatchDomainInfo (backend : ToolCall → Envelope α) (raw : BatchDomainRaw) :
    Except ToolError (Option α) × List ToolCall :=
  match parseBatchDomainInfo raw with
  | .error m => (.error (.validation m), [])
  | .ok ds =>
    let call := ToolCall.post "/api/v1/domains/batch/info" (.domainsBatch ds)
    let response := backend call
    if response.success then (.ok response.data, [call])
    else (.error (.thrown (orElseStr (response.error.map ApiError.message)
      "Failed to fetch batch domain info")), [call])

/-- Raw (pre-validation) input of `validate_adstxt_quick`. -/
structure QuickValidationRaw where
  content : Option String
  checkDuplicates : Option Bool
  deriving DecidableEq, Repr

structure QuickValidationParsed where
  content : String
  checkDuplicates : Bool
  deriving DecidableEq, Repr

/-- `QuickValidationInputSchema.parse` (validate.ts): content a non-empty
string, checkDuplicates defaulting to true. -/
def parseQuickValidation (r : QuickValidationRaw) : Except String QuickValidationParsed :=
  match r.content with
  | none => .error "Required"
  | some c =>
    if c = "" then .error "Content is required"
    else .ok { content := c, checkDuplicates := r.checkDuplicates.getD true }

/-- `validateAdsTxtQuick` (validate.ts). -/
def validateAdsTxtQuick (backend : ToolCall → Envelope α) (raw : QuickValidationRaw) :
    Except ToolError (Option α) × List ToolCall :=
  match parseQuickValidation raw with
  | .error m => (.error (.validation m), [])
  | .ok p =>
    let call := ToolCall.post "/api/v1/adstxt/validate/quick"
      (.validateQuick p.content p.checkDuplicates)
    let response := backend call
    if response.success then (.ok response.data, [call])
    else (.error (.thrown (orElseStr (response.error.map ApiError.message) "Validation failed")),
      [call])

/-- Raw (pre-validation) input of `optimize_adstxt`. -/
structure OptimizationRaw where
  content : Option String
  publisher_domain : Option String
  level : Option String
  deriving DecidableEq, Repr

structure OptimizationParsed where
  content : String
  publisher_domain : Option String
  level : String
  deriving DecidableEq, Repr

/-- `OptimizationInputSchema.parse` (optimize.ts lines 10-14): content a
non-empty string, level in {level1, level2} defaulting to level1. -/
def parseOptimization (r : OptimizationRaw) : Except String OptimizationParsed :=
  match r.content with
  | none => .error "Required"
  | some c =>
    if c = "" then .error "Content is required"
    else
      let lvl := r.level.getD "level1"
      if lvl = "level1" ∨ lvl = "level2" then
        .ok { content := c, publisher_domain := r.publisher_domain, level := lvl }
      else .error "Invalid enum value"

/-- `optimizeAdsTxt` (optimize.ts lines 27-41). -/
def optimizeAdsTxt (backend : ToolCall → Envelope α) (raw : OptimizationRaw) :
    Except ToolError (Option α) × List ToolCall :=
  match parseOptimization raw with
  | .error m => (.error (.validation m), [])
  | .ok p =>
    let call := ToolCall.post "/api/adsTxt/optimize"
      (.optimize p.content p.publisher_domain p.level)
    let response := backend call
    if response.success then (.ok response.data, [call])
    else (.error (.thrown (orElseStr (response.error.map ApiError.message) "Optimization failed")),
      [call])

/-- `AdsTxtCacheResult` (types): the payload of the ads.txt cache fetch. -/
structure AdsTxtCacheResult where
  domain : String
  content : String
  fetched_at : String
  status : String
  deriving DecidableEq, Repr

/-- `OptimizationResult` payload fields used by this layer. -/
structure OptimizationResult where
  optimized_content : String
  original_length : Nat
  optimized_length : Nat
  deriving DecidableEq, Repr

/-- The value `optimizeAdsTxtByDomain` returns: the spread of the optimize
call's `data` (possibly absent) plus `domain` and `fetched_at`. -/
structure OptimizeByDomainResult where
  base : Option OptimizationResult
  domain : String
  fetched_at : String
  deriving DecidableEq, Repr

/-- Raw (pre-validation) input of `optimize_adstxt_by_domain`. -/
structure OptByDomainRaw where
  domain : Option String
  level : Option String
  force : Option Bool
  deriving DecidableEq, Repr

structure OptByDomainParsed where
  domain : String
  level : String
  force : Bool
  deriving DecidableEq, Repr

/-- `OptimizationByDomainInputSchema.parse` (optimize.ts lines 16-20). -/
def parseOptByDomain (r : OptByDomainRaw) : Except String OptByDomainParsed :=
  match r.domain with
  | none => .error "Required"
  | some d =>
    if d = "" then .error "Domain is required"
    else
      let lvl := r.level.getD "level1"
      if lvl = "level1" ∨ lvl = "level2" then
        .ok { domain := d, level := lvl, force := r.force.getD false }
      else .error "Invalid enum value"

/-- `optimizeAdsTxtByDomain` (optimize.ts lines 47-80): fetch the cached
ads.txt (call 1), throw when it failed or reported a non-success status,
otherwise optimize the fetched content (call 2) and merge `domain` and
`fetched_at` into the optimize result.  `getB` answers the GET by path and
`postB` answers the POST by its body. -/
def optimizeAdsTxtByDomain (getB : String → Envelope AdsTxtCacheResult)
    (postB : PostBody → Envelope OptimizationResult) (raw : OptByDomainRaw) :
    Except ToolError OptimizeByDomainResult × List ToolCall :=
  match parseOptByDomain raw with
  | .error m => (.error (.validation m), [])
  | .ok p =>
    let path := "/api/adsTxtCache/domain/" ++ p.domain ++ (if p.force then "?force=true" else "")
    let cacheResponse := getB path
    if cacheResponse.success then
      match cacheResponse.data with
      | none => (.error (.thrown ("No ads.txt found for domain: " ++ p.domain)), [.get path])
      | some d =>
        if d.status = "success" then
          let body := PostBody.optimize d.content (some p.domain) p.level
          let optimizeResponse := postB body
          let calls := [ToolCall.get path, ToolCall.post "/api/adsTxt/optimize" body]
          if optimizeResponse.success then
            (.ok { base := optimizeResponse.data, domain := p.domain, fetched_at := d.fetched_at },
              calls)
          else
            (.error (.thrown (orElseStr (optimizeResponse.error.map ApiError.message)
              "Optimization failed")), calls)
        else (.error (.thrown ("No ads.txt found for domain: " ++ p.domain)), [.get path])
    else
      (.error (.thrown (orElseStr (cacheResponse.error.map ApiError.message)
        "Failed to fetch ads.txt cache")), [.get path])

/-! ### Error help tool (src/tools/help.ts) -/

/-- `content.split('\n')` on the character list: split into newline-free
groups, one per line, keeping empty lines. -/
def splitNlChars : List Char → List (List Char)
  | [] => [[]]
  | c :: cs =>
    if c = '\n' then [] :: splitNlChars cs
    else
      match splitNlChars cs with
      | [] => [[c]]
      | g :: gs => (c :: g) :: gs

/-- `content.split('\n')`. -/
def splitNl (s : String) : List String :=
  (splitNlChars s.toList).map String.mk

/-- JavaScript `String.prototype.trim`: drop whitespace from both ends. -/
def jsTrim (s : String) : String :=
  String.mk (((s.toList.dropWhile Char.isWhitespace).reverse.dropWhile Char.isWhitespace).reverse)

/-- `lines[j].startsWith('###')`. -/
def isHeaderLine (l : String) : Bool :=
  "###".toList.isPrefixOf l.toList

/-- The test `codePattern.test(line)` for the pattern built from
`(Code: <errorCode>)` with the `i` flag: a case-insensitive literal
occurrence of the marker in the line (modelled for codes without regex
metacharacters). -/
def lineMatchesCode (errorCode l : String) : Bool :=
  decide ((("(Code: " ++ errorCode ++ ")").toList.map Char.toLower) <:+:
    (l.toList.map Char.toLower))

/-- Index of the first element satisfying `p` (the forward scan of the JS
`for` loops). -/
def findFirstIdx (p : α → Bool) : List α → Option Nat
  | [] => none
  | a :: as => if p a then some 0 else (findFirstIdx p as).map (· + 1)

/-- The backtracking loop `for (let j = i; j >= 0; j--)` looking for the
nearest heading at or before position `j`. -/
def lastHeaderUpTo (lines : List String) : Nat → Option Nat
  | 0 => if isHeaderLine (lines.getD 0 "") then some 0 else none
  | j + 1 => if isHeaderLine (lines.getD (j + 1) "") then some (j + 1) else lastHeaderUpTo lines j

/-- The forward loop `for (let j = i + 1; j < lines.length; j++)` looking for
the next heading, with `lines.length` when there is none. -/
def nextHeaderFrom (lines : List String) (start : Nat) : Nat :=
  match findFirstIdx isHeaderLine (lines.drop start) with
  | some k => start + k
  | none => lines.length

/-- `extractErrorSection` (help.ts lines 48-87) on the split lines: find the
first line containing the code marker, backtrack to the nearest preceding
level-3 heading, extend to the next level-3 heading or end of document, and
return the trimmed joined slice. -/
def extractFromLines (lines : List String) (errorCode : String) : Option String :=
  match findFirstIdx (lineMatchesCode errorCode) lines with
  | none => none
  | some i =>
    match lastHeaderUpTo lines i with
    | none => none
    | some s =>
      let e := nextHeaderFrom lines (i + 1)
      some (jsTrim (String.intercalate "\n" ((lines.take e).drop s)))

/-- `extractErrorSection` on the raw document string. -/
def extractErrorSection (content errorCode : String) : Option String :=
  extractFromLines (splitNl content) errorCode

/-- The `anchorMap` record of `getAnchorId` (help.ts lines 92-136). -/
def anchorMap : List (String × String) :=
  [("10010", "file-not-found"), ("10020", "invalid-content-type"), ("10030", "timeout"),
   ("10040", "too-many-redirects"), ("10050", "too-many-redirects"),
   ("11010", "missing-fields"), ("11020", "invalid-relationship"), ("11030", "invalid-domain"),
   ("11040", "no-valid-entries"), ("11050", "whitespace-in-fields"),
   ("12010", "no-sellers-json"), ("12020", "direct-account-id-not-in-sellers-json"),
   ("12030", "domain-mismatch"), ("12040", "direct-not-publisher"),
   ("12050", "direct-not-publisher"), ("12060", "seller-id-not-unique"),
   ("13010", "no-sellers-json"), ("13020", "reseller-account-id-not-in-sellers-json"),
   ("13030", "domain-mismatch"), ("13040", "reseller-not-intermediary"),
   ("13050", "reseller-not-intermediary"), ("13060", "seller-id-not-unique"),
   ("14020", "invalid-subdomain-url"), ("14030", "invalid-subdomain"),
   ("14040", "invalid-subdomain-ads-txt"), ("14050", "subdomain-not-listed"),
   ("14060", "subdomain-contains-subdomains"), ("15020", "invalid-inventory-partner-domain"),
   ("15030", "inventory-partner-contains-partners"), ("16010", "invalid-manager-domain"),
   ("16020", "multiple-manager-domains-without-country"), ("16030", "invalid-country-code"),
   ("16040", "manager-without-sellers-json"), ("16050", "manager-without-entry"),
   ("16060", "manager-not-direct"), ("16070", "manager-sellers-json-without-id"),
   ("16080", "manager-sellers-json-domain-mismatch"),
   ("16090", "manager-sellers-json-not-publisher"), ("17010", "invalid-owner-domain"),
   ("17020", "multiple-owner-domains"), ("17030", "owner-domain-mismatch")]

/-- `getAnchorId` (help.ts lines 92-139): look the code up in `anchorMap`,
falling back to the generic anchor. -/
def getAnchorId (errorCode : String) : String :=
  (anchorMap.lookup errorCode).getD "invalid-format"

/-- Raw (pre-validation) input of `get_error_help`. -/
structure ErrorHelpRaw where
  errorCode : Option String
  language : Option String
  deriving DecidableEq, Repr

structure ErrorHelpParsed where
  errorCode : Option String
  language : String
  deriving DecidableEq, Repr

/-- `ErrorHelpInputSchema.parse` (help.ts lines 10-13): errorCode optional,
language in {en, ja} defaulting to en. -/
def parseErrorHelp (r : ErrorHelpRaw) : Except String ErrorHelpParsed :=
  match r.language with
  | none => .ok { errorCode := r.errorCode, language := "en" }
  | some l =>
    if l = "en" ∨ l = "ja" then .ok { errorCode := r.errorCode, language := l }
    else .error "Invalid enum value"

/-- The result of `getErrorHelp` (`ErrorHelpResult`). -/
structure ErrorHelpResult where
  content : String
  url : Option String
  deriving DecidableEq, Repr

/-- Failure of `getErrorHelp`: an uncaught zod throw from `parse`, or the
wrapped `Error` built in the catch block. -/
inductive HelpFailure where
  | zod (msg : String)
  | wrapped (msg : String)
  deriving DecidableEq, Repr

/-- The message of a caught value: `error instanceof Error ? error.message
: 'Unknown error'`. -/
def caughtMessage : ApiClient.CaughtValue → String
  | .errorInstance m => m
  | .plainApiError _ => "Unknown error"

/-- `getErrorHelp` (help.ts lines 18-43): validate the input, fetch the raw
warnings document (`fetchResult` is the outcome of `apiClient.getRaw`), and
when a non-empty error code was requested and its section is found return the
section with its anchor URL; otherwise return the full document.  A fetch
failure is wrapped into a new `Error` whose message appends the caught
value's message. -/
def getErrorHelp (fetchResult : Except ApiClient.CaughtValue String) (raw : ErrorHelpRaw) :
    Except HelpFailure ErrorHelpResult :=
  match parseErrorHelp raw with
  | .error m => .error (.zod m)
  | .ok p =>
    match fetchResult with
    | .error c => .error (.wrapped ("Failed to fetch error help: " ++ caughtMessage c))
    | .ok content =>
      match p.errorCode with
      | some code =>
        if code = "" then .ok { content := content, url := none }
        else
          match extractErrorSection content code with
          | some result =>
            .ok { content := result
                  url := some ("https://adstxt-manager.jp/help/" ++ p.language ++
                    "/warnings.md#" ++ getAnchorId code) }
          | none => .ok { content := content, url := none }
      | none => .ok { content := content, url := none }

/-! ### Tool catalog and call-tool dispatch (src/index.ts) -/

/-- The tools the call-tool switch dispatches to (index.ts lines 274-321). -/
inductive ToolId where
  | validate_adstxt_quick
  | validate_adstxt
  | optimize_adstxt
  | get_adstxt_cache
  | get_domain_info
  | get_batch_domain_info
  | get_sellers_json
  | get_sellers_json_metadata
  | search_sellers_batch
  | get_seller_by_id
  | get_error_help
  deriving DecidableEq, Repr

/-- The outcome of routing a tool name: a handled tool, or the `default`
branch throwing `McpError(ErrorCode.MethodNotFound, ...)`. -/
inductive Routed where
  | tool (t : ToolId)
  | methodNotFound
  deriving DecidableEq, Repr

/-- The `switch (name)` of the CallToolRequestSchema handler
(index.ts lines 274-321). -/
def dispatch (name : String) : Routed :=
  if name = "validate_adstxt_quick" then .tool .validate_adstxt_quick
  else if name = "validate_adstxt" then .tool .validate_adstxt
  else if name = "optimize_adstxt" then .tool .optimize_adstxt
  else if name = "get_adstxt_cache" then .tool .get_adstxt_cache
  else if name = "get_domain_info" then .tool .get_domain_info
  else if name = "get_batch_domain_info" then .tool .get_batch_domain_info
  else if name = "get_sellers_json" then .tool .get_sellers_json
  else if name = "get_sellers_json_metadata" then .tool .get_sellers_json_metadata
  else if name = "search_sellers_batch" then .tool .search_sellers_batch
  else if name = "get_seller_by_id" then .tool .get_seller_by_id
  else if name = "get_error_help" then .tool .get_error_help
  else .methodNotFound

/-- The names in the `tools` array served to list-tools
(index.ts lines 45-258). -/
def listedToolNames : List String :=
  ["validate_adstxt_quick", "validate_adstxt", "optimize_adstxt", "get_adstxt_cache",
   "get_domain_info", "get_batch_domain_info", "get_sellers_json", "get_sellers_json_metadata",
   "search_sellers_batch", "get_seller_by_id", "get_error_help"]

/-- Modelled from the spec: the tool catalog of section 6 (name column of the
table), which also lists `optimize_adstxt_by_domain` with backend pattern
`GET cache/domain then POST optimize`; the repository's AGENT.md documents
the same tool.  The spec's catalog is the comparison point for the dispatch
table. -/
def specCatalogToolNames : List String :=
  ["validate_adstxt_quick", "validate_adstxt", "optimize_adstxt", "optimize_adstxt_by_domain",
   "get_adstxt_cache", "get_sellers_json", "get_sellers_json_metadata", "search_sellers_batch",
   "get_seller_by_id", "get_domain_info", "get_batch_domain_info", "get_error_help"]

/-! ### Theorems -/

/-- C1: the spec's section-6 tool catalog lists `optimize_adstxt_by_domain`
(with pattern GET cache/domain then POST optimize), but the call-tool switch
has no case for it: the dispatcher falls through to the method-not-found
branch, so the catalog and the dispatch table's domain of defined tool names
are not equal.  Every name the code itself lists is routed; the one name the
code fails to register is `optimize_adstxt_by_domain`, whose implementation
`optimizeAdsTxtByDomain` exists in optimize.ts and is documented in the
repository's AGENT.md but is never imported by index.ts. -/
theorem dispatch_misses_optimize_by_domain :
    "optimize_adstxt_by_domain" ∈ specCatalogToolNames ∧
    dispatch "optimize_adstxt_by_domain" = .methodNotFound ∧
    "optimize_adstxt_by_domain" ∉ listedToolNames ∧
    listedToolNames.all (fun n => dispatch n != Routed.methodNotFound) = true := by
  decide

/-- C2: whatever value the transport throws (structured error response, bare
HTTP failure, timeout, network failure, or a non-transport exception),
`ApiClient.get` and `ApiClient.post` catch it and return a normal
`{ success := false, error := normalized }` envelope; being total Lean
functions into `Envelope`, they never propagate the exception. -/
theorem get_post_return_failure_envelope {α : Type} (retries timeoutMs : Nat)
    (backend : Nat → CallResult (Envelope α)) (t : ThrownError)
    (h : (ApiClient.retryLoop backend retries 0).1 = .err t) :
    ApiClient.get retries timeoutMs backend =
      { success := false, data := none, error := some (ApiClient.handleError timeoutMs t) } ∧
    ApiClient.post retries timeoutMs backend =
      { success := false, data := none, error := some (ApiClient.handleError timeoutMs t) } := by
  constructor <;> simp [ApiClient.get, ApiClient.post, h]

/-- Witness for C2 at a concrete one-shot network failure. -/
theorem get_post_return_failure_envelope_witness :
    ApiClient.get 0 30000 (fun _ => (.err (.axios ⟨none, none, "socket hang up"⟩) :
        CallResult (Envelope Unit))) =
      { success := false, data := none,
        error := some { code := "NETWORK_ERROR", message := "socket hang up", details := none } } ∧
    ApiClient.post 0 30000 (fun _ => (.err (.axios ⟨none, none, "socket hang up"⟩) :
        CallResult (Envelope Unit))) =
      { success := false, data := none,
        error := some { code := "NETWORK_ERROR", message := "socket hang up", details := none } } :=
  get_post_return_failure_envelope 0 30000 _ (.axios ⟨none, none, "socket hang up"⟩) rfl

/-- C5 counterexample: an abort/timeout-class failure (`code = ECONNABORTED`)
that carries a received HTTP response is normalized by the response branch,
not the timeout branch: the result's code is `SERVER_ERROR`, not `TIMEOUT`,
because `handleError` checks `axiosError.response` first. -/
theorem handleError_timeout_class_with_response :
    (ApiClient.handleError 30000 (.axios
      { response := some { status := 500, body := none },
        code := some "ECONNABORTED",
        message := "timeout of 30000ms exceeded" })).code = "SERVER_ERROR" ∧
    (ApiClient.handleError 30000 (.axios
      { response := some { status := 500, body := none },
        code := some "ECONNABORTED",
        message := "timeout of 30000ms exceeded" })).code ≠ "TIMEOUT" := by
  decide

/-- C5 (amended): a timeout/abort-class failure with no received response
object normalizes to `{ code := TIMEOUT, message := "Request timeout",
details := { timeout } }`, regardless of the error's own message. -/
theorem handleError_timeout_no_response (timeoutMs : Nat) (e : AxiosErr)
    (hcode : e.code = some "ECONNABORTED" ∨ e.code = some "ETIMEDOUT")
    (hresp : e.response = none) :
    ApiClient.handleError timeoutMs (.axios e) =
      { code := "TIMEOUT", message := "Request timeout",
        details := some (.timeoutMs timeoutMs) } := by
  rcases hcode with h | h <;> simp [ApiClient.handleError, hresp, h]

/-- Witness for the amended C5 at a concrete aborted request. -/
theorem handleError_timeout_no_response_witness :
    ApiClient.handleError 30000 (.axios
      { response := none, code := some "ECONNABORTED",
        message := "timeout of 30000ms exceeded" }) =
      { code := "TIMEOUT", message := "Request timeout",
        details := some (.timeoutMs 30000) } :=
  handleError_timeout_no_response 30000
    { response := none, code := some "ECONNABORTED", message := "timeout of 30000ms exceeded" }
    (.inl rfl) rfl

/-- C9 counterexample: `ApiClient.get` returns the backend's success-path
envelope verbatim, so a backend body with `success = true` and a present
`error` field is returned unchanged — the claimed invariant is not enforced
on passed-through envelopes. -/
theorem passthrough_envelope_keeps_error_field :
    (ApiClient.get 3 30000 (fun _ => .ok
      (⟨true, none, some ⟨"SOME_CODE", "bad", none⟩⟩ : Envelope Unit))).success = true ∧
    (ApiClient.get 3 30000 (fun _ => .ok
      (⟨true, none, some ⟨"SOME_CODE", "bad", none⟩⟩ : Envelope Unit))).error.isSome = true := by
  exact ⟨rfl, rfl⟩

/-- C9 (amended): every envelope `ApiClient.get`/`post` construct locally on
failure satisfies the invariant (`success = false`, `data` absent, `error`
present); success-path envelopes are the backend's body verbatim, so for
them the invariant holds exactly when the backend's body satisfies it. -/
theorem envelope_invariant_amended {α : Type} (retries timeoutMs : Nat)
    (backend : Nat → CallResult (Envelope α)) :
    (∀ t, (ApiClient.retryLoop backend retries 0).1 = .err t →
      (ApiClient.get retries timeoutMs backend).success = false ∧
      (ApiClient.get retries timeoutMs backend).data = none ∧
      (ApiClient.get retries timeoutMs backend).error.isSome = true ∧
      (ApiClient.post retries timeoutMs backend).success = false ∧
      (ApiClient.post retries timeoutMs backend).data = none ∧
      (ApiClient.post retries timeoutMs backend).error.isSome = true) ∧
    (∀ env, (ApiClient.retryLoop backend retries 0).1 = .ok env →
      ApiClient.get retries timeoutMs backend = env ∧
      ApiClient.post retries timeoutMs backend = env) := by
  constructor
  · intro t ht
    simp [ApiClient.get, ApiClient.post, ht]
  · intro env henv
    simp [ApiClient.get, ApiClient.post, henv]

/-- Witness for the amended C9: a failing backend and a succeeding backend,
each at a concrete input. -/
theorem envelope_invariant_amended_witness :
    ((ApiClient.get 0 30000 (fun _ => (.err .nonError : CallResult (Envelope Unit)))).success
        = false ∧
      (ApiClient.get 0 30000 (fun _ => (.err .nonError : CallResult (Envelope Unit)))).data
        = none ∧
      (ApiClient.get 0 30000 (fun _ => (.err .nonError : CallResult (Envelope Unit)))).error.isSome
        = true ∧
      (ApiClient.post 0 30000 (fun _ => (.err .nonError : CallResult (Envelope Unit)))).success
        = false ∧
      (ApiClient.post 0 30000 (fun _ => (.err .nonError : CallResult (Envelope Unit)))).data
        = none ∧
      (ApiClient.post 0 30000
        (fun _ => (.err .nonError : CallResult (Envelope Unit)))).error.isSome = true) ∧
    (ApiClient.get 0 30000 (fun _ => .ok (⟨true, some (), none⟩ : Envelope Unit)) =
        ⟨true, some (), none⟩ ∧
      ApiClient.post 0 30000 (fun _ => .ok (⟨true, some (), none⟩ : Envelope Unit)) =
        ⟨true, some (), none⟩) :=
  ⟨(envelope_invariant_amended 0 30000 _).1 .nonError rfl,
   (envelope_invariant_amended 0 30000 _).2 ⟨true, some (), none⟩ rfl⟩

/-- For a backend whose every attempt fails retryably, the interceptor loop
issues all allowed reissues: starting at attempt index `attempt` with
`remaining` retries left it performs `remaining` further attempts, awaiting
`2 ^ k * 1000` before the reissue that follows the failure of attempt `k`. -/
theorem retryLoop_constFail {α : Type} (t : ThrownError) (ht : ApiClient.shouldRetryThrown t = true) :
    ∀ remaining attempt : Nat,
      ApiClient.retryLoop (fun _ => (.err t : CallResult α)) remaining attempt =
        (.err t, (List.range' attempt remaining).map (fun k => 2 ^ k * 1000),
          List.range' attempt (remaining + 1))
  | 0, attempt => by
    simp [ApiClient.retryLoop, List.range']
  | r + 1, attempt => by
    have ih := retryLoop_constFail (α := α) t ht r (attempt + 1)
    simp [ApiClient.retryLoop, ht, ih, List.range'_succ]

/-- When the backend succeeds at the current attempt, the loop stops at once
whatever budget remains. -/
theorem retryLoop_ok {α : Type} (backend : Nat → CallResult α) (attempt : Nat) (a : α)
    (h : backend attempt = .ok a) :
    ∀ remaining, ApiClient.retryLoop backend remaining attempt = (.ok a, [], [attempt]) := by
  intro remaining
  cases remaining <;> simp [ApiClient.retryLoop, h]

/-- C3: against a backend that always fails retryably (here: with a received
response of status at least 500 and no structured error body), one logical
request issues exactly `retries` additional attempts beyond the first
(attempt indexes 0 through `retries`), awaiting `1000 * 2 ^ attempt`
milliseconds before each reissue starting at attempt 0, so successive delays
are strictly increasing; once the budget is exhausted the last failure is
normalized into a `SERVER_ERROR` envelope.  A backend failing with the same
retryable error on attempts 0 and 1 and succeeding on attempt 2 yields the
successful envelope after delays of exactly 1000 and 2000. -/
theorem retry_policy {α : Type} (retries timeoutMs : Nat)
    (e500 : AxiosErr) (resp : AxiosResponse)
    (hresp : e500.response = some resp) (hstatus : 500 ≤ resp.status)
    (hbody : (resp.body.bind fun b => b.error) = none)
    (flaky : Nat → CallResult (Envelope α)) (env : Envelope α) (t : ThrownError)
    (ht : ApiClient.shouldRetryThrown t = true)
    (h0 : flaky 0 = .err t) (h1 : flaky 1 = .err t) (h2 : flaky 2 = .ok env)
    (hr : 2 ≤ retries) :
    ApiClient.retryLoop (fun _ => (.err (.axios e500) : CallResult (Envelope α))) retries 0 =
      (.err (.axios e500), (List.range retries).map (fun k => 2 ^ k * 1000),
        List.range (retries + 1)) ∧
    List.Pairwise (· < ·) ((List.range retries).map (fun k => 2 ^ k * 1000)) ∧
    ApiClient.get retries timeoutMs (fun _ => (.err (.axios e500) : CallResult (Envelope α))) =
      ⟨false, none, some ⟨"SERVER_ERROR", e500.message, some (.body resp.body)⟩⟩ ∧
    ApiClient.retryLoop flaky retries 0 = (.ok env, [1000, 2000], [0, 1, 2]) ∧
    ApiClient.get retries timeoutMs flaky = env := by
  have hretry : ApiClient.shouldRetryThrown (.axios e500) = true := by
    simp [ApiClient.shouldRetryThrown, ApiClient.shouldRetry, hresp, hstatus]
  have hconst := retryLoop_constFail (α := Envelope α) (.axios e500) hretry retries 0
  have hconst1 :
      (ApiClient.retryLoop (fun _ => (.err (.axios e500) : CallResult (Envelope α))) retries 0).1 =
        .err (.axios e500) := by
    rw [hconst]
  have hcode : (resp.body.bind fun b => b.error.bind fun eb => eb.code) = none := by
    rw [← Option.bind_assoc, hbody]; rfl
  have hmsg : (resp.body.bind fun b => b.error.bind fun eb => eb.message) = none := by
    rw [← Option.bind_assoc, hbody]; rfl
  have hok := retryLoop_ok flaky 2 env h2
  obtain ⟨r2, rfl⟩ : ∃ r2, retries = r2 + 2 := ⟨retries - 2, by omega⟩
  have hflaky : ApiClient.retryLoop flaky (r2 + 2) 0 = (.ok env, [1000, 2000], [0, 1, 2]) := by
    simp [ApiClient.retryLoop, h0, h1, ht, hok r2]
  refine ⟨?_, ?_, ?_, hflaky, ?_⟩
  · rw [hconst, List.range_eq_range' (r2 + 2), List.range_eq_range' (r2 + 2 + 1)]
  · exact List.Pairwise.map _
      (fun a b hab => by
        have hpw : (2 : Nat) ^ a < 2 ^ b := Nat.pow_lt_pow_right (by norm_num) hab
        omega)
      (List.pairwise_lt_range _)
  · simp [ApiClient.get, hconst1, ApiClient.handleError, hresp, hcode, hmsg, orElseStr]
  · simp [ApiClient.get, hflaky]

/-- Witness for C3: the default budget of 3 retries against a concrete
always-500 backend and a concrete fail-twice-then-succeed backend. -/
theorem retry_policy_witness :
    ApiClient.retryLoop
        (fun _ => (.err (.axios ⟨some ⟨500, some ⟨none, ""⟩⟩, none,
          "Request failed with status code 500"⟩) : CallResult (Envelope Unit))) 3 0 =
      (.err (.axios ⟨some ⟨500, some ⟨none, ""⟩⟩, none, "Request failed with status code 500"⟩),
        (List.range 3).map (fun k => 2 ^ k * 1000), List.range 4) ∧
    List.Pairwise (· < ·) ((List.range 3).map (fun k => 2 ^ k * 1000)) ∧
    ApiClient.get 3 30000
        (fun _ => (.err (.axios ⟨some ⟨500, some ⟨none, ""⟩⟩, none,
          "Request failed with status code 500"⟩) : CallResult (Envelope Unit))) =
      ⟨false, none, some ⟨"SERVER_ERROR", "Request failed with status code 500",
        some (.body (some ⟨none, ""⟩))⟩⟩ ∧
    ApiClient.retryLoop
        (fun n => if n < 2 then
          .err (.axios ⟨some ⟨500, some ⟨none, ""⟩⟩, none, "Request failed with status code 500"⟩)
          else .ok (⟨true, some (), none⟩ : Envelope Unit)) 3 0 =
      (.ok ⟨true, some (), none⟩, [1000, 2000], [0, 1, 2]) ∧
    ApiClient.get 3 30000
        (fun n => if n < 2 then
          .err (.axios ⟨some ⟨500, some ⟨none, ""⟩⟩, none, "Request failed with status code 500"⟩)
          else .ok (⟨true, some (), none⟩ : Envelope Unit)) =
      ⟨true, some (), none⟩ :=
  retry_policy 3 30000
    ⟨some ⟨500, some ⟨none, ""⟩⟩, none, "Request failed with status code 500"⟩
    ⟨500, some ⟨none, ""⟩⟩ rfl (by norm_num) rfl
    (fun n => if n < 2 then
      .err (.axios ⟨some ⟨500, some ⟨none, ""⟩⟩, none, "Request failed with status code 500"⟩)
      else .ok (⟨true, some (), none⟩ : Envelope Unit))
    ⟨true, some (), none⟩
    (.axios ⟨some ⟨500, some ⟨none, ""⟩⟩, none, "Request failed with status code 500"⟩)
    rfl rfl rfl rfl (by norm_num)

/-- Modelled from the claim (C4): the five-case normalization precedence as
the claim states it, first match winning — case 1 fires when a structured
error body supplies `error.code`/`error.message` and demands both verbatim
with `details` the full response body; case 2 covers any other received HTTP
response and demands `SERVER_ERROR` with the transport's message; cases 3-5
as in the claim (only the fields the claim fixes are checked). -/
def claimFiveCaseHolds (timeoutMs : Nat) : ThrownError → ApiError → Bool
  | .axios e, out =>
    match e.response with
    | some r =>
      match (r.body.bind fun b => b.error.bind fun eb => eb.code),
          (r.body.bind fun b => b.error.bind fun eb => eb.message) with
      | some c, some m => out == ⟨c, m, some (.body r.body)⟩
      | _, _ => out.code == "SERVER_ERROR" && out.message == e.message
    | none =>
      if e.code == some "ECONNABORTED" || e.code == some "ETIMEDOUT" then
        out == ⟨"TIMEOUT", "Request timeout", some (.timeoutMs timeoutMs)⟩
      else out.code == "NETWORK_ERROR"
  | .jsError _, out => out.code == "UNKNOWN_ERROR"
  | .nonError, out => out.code == "UNKNOWN_ERROR"

/-- C4 counterexample: a received response whose structured body carries
`error.code` but no `error.message` satisfies none of the claim's five cases:
`handleError` mixes case 1 and case 2, taking the code from the body and the
message from the transport error, so its output is neither the claimed
case-1 output (message verbatim from the body) nor the claimed case-2 output
(code `SERVER_ERROR`). -/
theorem handleError_fieldwise_breaks_five_cases :
    claimFiveCaseHolds 30000
      (.axios ⟨some ⟨500, some ⟨some ⟨some "X_CODE", none⟩, ""⟩⟩, none,
        "Request failed with status code 500"⟩)
      (ApiClient.handleError 30000
        (.axios ⟨some ⟨500, some ⟨some ⟨some "X_CODE", none⟩, ""⟩⟩, none,
          "Request failed with status code 500"⟩)) = false ∧
    (ApiClient.handleError 30000
      (.axios ⟨some ⟨500, some ⟨some ⟨some "X_CODE", none⟩, ""⟩⟩, none,
        "Request failed with status code 500"⟩)).code = "X_CODE" := by
  decide

/-- Modelled from the amended claim (C4): the precedence applies field-wise
for a received response — `code` is the structured body's `error.code` when
present and non-empty, else `SERVER_ERROR`; `message` is the structured
body's `error.message` when present and non-empty, else the transport's raw
message; `details` is always the full response body — and cases 3-5 are
unchanged. -/
def claimAmendedNormalize (timeoutMs : Nat) : ThrownError → ApiError
  | .axios e =>
    match e.response with
    | some r =>
      { code :=
          match r.body.bind fun b => b.error.bind fun eb => eb.code with
          | some c => if c = "" then "SERVER_ERROR" else c
          | none => "SERVER_ERROR"
        message :=
          match r.body.bind fun b => b.error.bind fun eb => eb.message with
          | some m => if m = "" then e.message else m
          | none => e.message
        details := some (.body r.body) }
    | none =>
      if e.code == some "ECONNABORTED" || e.code == some "ETIMEDOUT" then
        ⟨"TIMEOUT", "Request timeout", some (.timeoutMs timeoutMs)⟩
      else ⟨"NETWORK_ERROR", e.message, none⟩
  | .jsError msg => ⟨"UNKNOWN_ERROR", msg, none⟩
  | .nonError => ⟨"UNKNOWN_ERROR", "Unknown error occurred", none⟩

/-- C4 (amended): `handleError` realizes exactly the field-wise precedence:
for every thrown value the normalized error equals the amended five-case
description. -/
theorem handleError_matches_amended_precedence (timeoutMs : Nat) (t : ThrownError) :
    ApiClient.handleError timeoutMs t = claimAmendedNormalize timeoutMs t := by
  cases t with
  | axios e =>
    cases hr : e.response with
    | some r => simp only [ApiClient.handleError, claimAmendedNormalize, hr, orElseStr]
    | none => simp [ApiClient.handleError, claimAmendedNormalize, hr]
  | jsError msg => rfl
  | nonError => rfl

/-- Witness for the amended C4 at a concrete thrown value. -/
theorem handleError_matches_amended_precedence_witness :
    ApiClient.handleError 30000 (.axios ⟨some ⟨502, some ⟨some ⟨none, some "upstream bad"⟩, ""⟩⟩,
      none, "Request failed with status code 502"⟩) =
      claimAmendedNormalize 30000 (.axios ⟨some ⟨502, some ⟨some ⟨none, some "upstream bad"⟩, ""⟩⟩,
        none, "Request failed with status code 502"⟩) :=
  handleError_matches_amended_precedence 30000
    (.axios ⟨some ⟨502, some ⟨some ⟨none, some "upstream bad"⟩, ""⟩⟩,
      none, "Request failed with status code 502"⟩)

/-- A zod parse failure of `search_sellers_batch` input, for any of the
documented bound violations on `seller_ids`. -/
theorem parseBatchSearch_err (r : BatchSearchRaw) (ids : List String)
    (h : r.seller_ids = some ids) (hv : ids = [] ∨ 100 < ids.length) :
    ∃ m, parseBatchSearch r = .error m := by
  unfold parseBatchSearch
  cases hd : r.domain with
  | none => exact ⟨_, rfl⟩
  | some d =>
    rw [h]
    by_cases hde : d = ""
    · simp [hde]
    · rcases hv with rfl | hgt
      · simp [hde]
      · have hlt : ¬ ids.length < 1 := by omega
        simp [hde, hlt, hgt]

/-- A zod parse failure of `get_batch_domain_info` input, for any of the
documented bound violations on `domains`. -/
theorem parseBatchDomainInfo_err (r : BatchDomainRaw) (ds : List String)
    (h : r.domains = some ds) (hv : ds = [] ∨ 50 < ds.length) :
    ∃ m, parseBatchDomainInfo r = .error m := by
  unfold parseBatchDomainInfo
  rw [h]
  rcases hv with rfl | hgt
  · simp
  · have hlt : ¬ ds.length < 1 := by omega
    simp [hlt, hgt]

/-- C6: every input violating a documented bound — more than 100 seller ids,
more than 50 domains, an empty seller_ids or domains list, or empty content —
is rejected by the tool's zod validation step before any Transport Client
call: the operation returns a validation failure and its list of issued
calls is empty. -/
theorem validation_never_reaches_network {α β γ δ : Type}
    (b1 : ToolCall → Envelope α) (b2 : ToolCall → Envelope β)
    (b3 : ToolCall → Envelope γ) (b4 : ToolCall → Envelope δ)
    (r1 : BatchSearchRaw) (ids : List String)
    (h1 : r1.seller_ids = some ids) (hv1 : ids = [] ∨ 100 < ids.length)
    (r2 : BatchDomainRaw) (ds : List String)
    (h2 : r2.domains = some ds) (hv2 : ds = [] ∨ 50 < ds.length)
    (r3 : QuickValidationRaw) (h3 : r3.content = some "")
    (r4 : OptimizationRaw) (h4 : r4.content = some "") :
    ((searchSellersBatch b1 r1).2 = [] ∧
      ∃ m, (searchSellersBatch b1 r1).1 = .error (.validation m)) ∧
    ((getBatchDomainInfo b2 r2).2 = [] ∧
      ∃ m, (getBatchDomainInfo b2 r2).1 = .error (.validation m)) ∧
    ((validateAdsTxtQuick b3 r3).2 = [] ∧
      ∃ m, (validateAdsTxtQuick b3 r3).1 = .error (.validation m)) ∧
    ((optimizeAdsTxt b4 r4).2 = [] ∧
      ∃ m, (optimizeAdsTxt b4 r4).1 = .error (.validation m)) := by
  obtain ⟨m1, hm1⟩ := parseBatchSearch_err r1 ids h1 hv1
  obtain ⟨m2, hm2⟩ := parseBatchDomainInfo_err r2 ds h2 hv2
  have hm3 : parseQuickValidation r3 = .error "Content is required" := by
    unfold parseQuickValidation; rw [h3]; simp
  have hm4 : parseOptimization r4 = .error "Content is required" := by
    unfold parseOptimization; rw [h4]; simp
  refine ⟨⟨?_, m1, ?_⟩, ⟨?_, m2, ?_⟩, ⟨?_, "Content is required", ?_⟩,
    ⟨?_, "Content is required", ?_⟩⟩ <;>
    simp [searchSellersBatch, getBatchDomainInfo, validateAdsTxtQuick, optimizeAdsTxt,
      hm1, hm2, hm3, hm4]

/-- Witness for C6: 101 seller ids, 51 domains, and empty content, all at
concrete inputs with a trivial backend. -/
theorem validation_never_reaches_network_witness :
    ((searchSellersBatch (fun _ => (⟨true, none, none⟩ : Envelope Unit))
        ⟨some "ssp.example", some (List.replicate 101 "1")⟩).2 = [] ∧
      ∃ m, (searchSellersBatch (fun _ => (⟨true, none, none⟩ : Envelope Unit))
        ⟨some "ssp.example", some (List.replicate 101 "1")⟩).1 = .error (.validation m)) ∧
    ((getBatchDomainInfo (fun _ => (⟨true, none, none⟩ : Envelope Unit))
        ⟨some (List.replicate 51 "example.com")⟩).2 = [] ∧
      ∃ m, (getBatchDomainInfo (fun _ => (⟨true, none, none⟩ : Envelope Unit))
        ⟨some (List.replicate 51 "example.com")⟩).1 = .error (.validation m)) ∧
    ((validateAdsTxtQuick (fun _ => (⟨true, none, none⟩ : Envelope Unit))
        ⟨some "", none⟩).2 = [] ∧
      ∃ m, (validateAdsTxtQuick (fun _ => (⟨true, none, none⟩ : Envelope Unit))
        ⟨some "", none⟩).1 = .error (.validation m)) ∧
    ((optimizeAdsTxt (fun _ => (⟨true, none, none⟩ : Envelope Unit))
        ⟨some "", none, none⟩).2 = [] ∧
      ∃ m, (optimizeAdsTxt (fun _ => (⟨true, none, none⟩ : Envelope Unit))
        ⟨some "", none, none⟩).1 = .error (.validation m)) :=
  validation_never_reaches_network
    (fun _ => (⟨true, none, none⟩ : Envelope Unit)) (fun _ => (⟨true, none, none⟩ : Envelope Unit))
    (fun _ => (⟨true, none, none⟩ : Envelope Unit)) (fun _ => (⟨true, none, none⟩ : Envelope Unit))
    ⟨some "ssp.example", some (List.replicate 101 "1")⟩ (List.replicate 101 "1") rfl
    (by right; simp)
    ⟨some (List.replicate 51 "example.com")⟩ (List.replicate 51 "example.com") rfl
    (by right; simp)
    ⟨some "", none⟩ rfl
    ⟨some "", none, none⟩ rfl

/-- C7 counterexample: when the cache fetch (call 1) returns
`success = false`, `optimizeAdsTxtByDomain` raises the backend error's
message — here `boom`, which does not name the domain `example.com` — so the
claim that both failure cases raise an error naming the domain is false
(the optimize call is indeed not issued). -/
theorem optimizeByDomain_failure_message_lacks_domain :
    optimizeAdsTxtByDomain
      (fun _ => ⟨false, none, some ⟨"SOME_CODE", "boom", none⟩⟩)
      (fun _ => ⟨true, none, none⟩)
      ⟨some "example.com", none, none⟩ =
      (.error (.thrown "boom"), [.get "/api/adsTxtCache/domain/example.com"]) ∧
    ¬ ("example.com".toList <:+: "boom".toList) := by
  exact ⟨rfl, by decide⟩

/-- C7 (amended): `optimizeAdsTxtByDomain` never issues the optimize call
when call 1 reports `success = false` or a missing `data` or a `data.status`
other than `success`: in the `success = false` case it raises the backend
error's message (or the generic fallback), and in the non-success-status
case it raises `No ads.txt found for domain: <domain>`, whose text names the
domain.  When call 2 is issued, the calls are exactly the GET followed by a
POST whose content is call 1's fetched content, and on optimize success the
returned value merges call 2's `data` with the domain and call 1's
`fetched_at`. -/
theorem optimizeByDomain_ordering (getB : String → Envelope AdsTxtCacheResult)
    (postB : PostBody → Envelope OptimizationResult) (raw : OptByDomainRaw)
    (p : OptByDomainParsed) (hp : parseOptByDomain raw = .ok p) (path : String)
    (hpath : path =
      "/api/adsTxtCache/domain/" ++ p.domain ++ (if p.force then "?force=true" else "")) :
    ((getB path).success = false →
      optimizeAdsTxtByDomain getB postB raw =
        (.error (.thrown (orElseStr ((getB path).error.map ApiError.message)
          "Failed to fetch ads.txt cache")), [.get path])) ∧
    ((getB path).success = true → (getB path).data = none →
      optimizeAdsTxtByDomain getB postB raw =
        (.error (.thrown ("No ads.txt found for domain: " ++ p.domain)), [.get path])) ∧
    (∀ d, (getB path).success = true → (getB path).data = some d → d.status ≠ "success" →
      optimizeAdsTxtByDomain getB postB raw =
        (.error (.thrown ("No ads.txt found for domain: " ++ p.domain)), [.get path])) ∧
    p.domain.toList <:+: ("No ads.txt found for domain: " ++ p.domain).toList ∧
    (∀ d, (getB path).success = true → (getB path).data = some d → d.status = "success" →
      (optimizeAdsTxtByDomain getB postB raw).2 =
        [.get path, .post "/api/adsTxt/optimize" (.optimize d.content (some p.domain) p.level)] ∧
      ((postB (.optimize d.content (some p.domain) p.level)).success = true →
        (optimizeAdsTxtByDomain getB postB raw).1 =
          .ok ⟨(postB (.optimize d.content (some p.domain) p.level)).data, p.domain,
            d.fetched_at⟩)) := by
  subst hpath
  refine ⟨?_, ?_, ?_, ?_, ?_⟩
  · intro hs
    simp [optimizeAdsTxtByDomain, hp, hs]
  · intro hs hd
    simp [optimizeAdsTxtByDomain, hp, hs, hd]
  · intro d hs hd hst
    simp [optimizeAdsTxtByDomain, hp, hs, hd, hst]
  · have : ("No ads.txt found for domain: " ++ p.domain).toList =
        "No ads.txt found for domain: ".toList ++ p.domain.toList := String.data_append _ _
    rw [this]
    exact (List.suffix_append _ _).isInfix
  · intro d hs hd hst
    constructor
    · cases hps : (postB (.optimize d.content (some p.domain) p.level)).success <;>
        simp [optimizeAdsTxtByDomain, hp, hs, hd, hst, hps]
    · intro hps
      simp [optimizeAdsTxtByDomain, hp, hs, hd, hst, hps]

/-- Witness for the amended C7: a concrete domain whose cache fetch succeeds
with status `success`, followed by a successful optimize call. -/
theorem optimizeByDomain_ordering_witness :
    (optimizeAdsTxtByDomain
      (fun _ => ⟨true, some ⟨"example.com", "adstxt lines", "2024-01-01", "success"⟩, none⟩)
      (fun _ => ⟨true, some ⟨"optimized", 12, 9⟩, none⟩)
      ⟨some "example.com", none, none⟩).2 =
      [.get "/api/adsTxtCache/domain/example.com",
       .post "/api/adsTxt/optimize" (.optimize "adstxt lines" (some "example.com") "level1")] ∧
    (optimizeAdsTxtByDomain
      (fun _ => ⟨true, some ⟨"example.com", "adstxt lines", "2024-01-01", "success"⟩, none⟩)
      (fun _ => ⟨true, some ⟨"optimized", 12, 9⟩, none⟩)
      ⟨some "example.com", none, none⟩).1 =
      .ok ⟨some ⟨"optimized", 12, 9⟩, "example.com", "2024-01-01"⟩ :=
  let app := (optimizeByDomain_ordering
    (fun _ => ⟨true, some ⟨"example.com", "adstxt lines", "2024-01-01", "success"⟩, none⟩)
    (fun _ => ⟨true, some ⟨"optimized", 12, 9⟩, none⟩)
    ⟨some "example.com", none, none⟩ ⟨"example.com", "level1", false⟩ rfl
    "/api/adsTxtCache/domain/example.com" rfl).2.2.2.2
    ⟨"example.com", "adstxt lines", "2024-01-01", "success"⟩ rfl rfl rfl
  ⟨app.1, app.2 rfl⟩

theorem findFirstIdx_eq_none {α : Type} (p : α → Bool) (l : List α)
    (h : ∀ x ∈ l, p x = false) : findFirstIdx p l = none := by
  induction l with
  | nil => rfl
  | cons a as ih =>
    have ha := h a (List.mem_cons_self a as)
    have ihs := ih fun x hx => h x (List.mem_cons_of_mem a hx)
    simp [findFirstIdx, ha, ihs]

theorem findFirstIdx_append_none {α : Type} (p : α → Bool) (xs ys : List α)
    (h : ∀ x ∈ xs, p x = false) :
    findFirstIdx p (xs ++ ys) = (findFirstIdx p ys).map (· + xs.length) := by
  induction xs with
  | nil => cases hy : findFirstIdx p ys <;> simp [hy]
  | cons a as ih =>
    have ha := h a (List.mem_cons_self a as)
    have ihs := ih fun x hx => h x (List.mem_cons_of_mem a hx)
    cases hy : findFirstIdx p ys with
    | none => simp [findFirstIdx, ha, ihs, hy]
    | some k =>
      simp [findFirstIdx, ha, ihs, hy]
      omega

theorem findFirstIdx_lt_length {α : Type} (p : α → Bool) :
    ∀ (l : List α) (k : Nat), findFirstIdx p l = some k → k < l.length
  | [], k, h => by simp [findFirstIdx] at h
  | a :: as, k, h => by
    by_cases ha : p a
    · simp [findFirstIdx, ha] at h
      simp [List.length_cons]
      omega
    · simp [findFirstIdx, ha] at h
      obtain ⟨j, hj, rfl⟩ := h
      have := findFirstIdx_lt_length p as j hj
      simp [List.length_cons]
      omega

theorem findFirstIdx_exists {α : Type} (p : α → Bool) :
    ∀ (l : List α) (x : α), x ∈ l → p x = true → ∃ k, findFirstIdx p l = some k
  | a :: as, x, hx, hp => by
    by_cases ha : p a
    · exact ⟨0, by simp [findFirstIdx, ha]⟩
    · rcases List.mem_cons.mp hx with rfl | hmem
      · exact absurd hp (by simp [ha])
      · obtain ⟨k, hk⟩ := findFirstIdx_exists p as x hmem hp
        exact ⟨k + 1, by simp [findFirstIdx, ha, hk]⟩

theorem lastHeaderUpTo_self (lines : List String) (s : Nat)
    (hs : isHeaderLine (lines.getD s "") = true) :
    lastHeaderUpTo lines s = some s := by
  cases s with
  | zero =>
    show (if isHeaderLine (lines.getD 0 "") then some 0 else none) = some 0
    rw [hs]
    simp
  | succ n =>
    show (if isHeaderLine (lines.getD (n + 1) "") then some (n + 1)
      else lastHeaderUpTo lines n) = some (n + 1)
    rw [hs]
    simp

theorem lastHeaderUpTo_skip (lines : List String) (s : Nat)
    (hs : isHeaderLine (lines.getD s "") = true) :
    ∀ k, (∀ m, m ≤ k → isHeaderLine (lines.getD (s + 1 + m) "") = false) →
      lastHeaderUpTo lines (s + 1 + k) = some s
  | 0, h => by
    have h0 := h 0 (Nat.le_refl 0)
    rw [Nat.add_zero] at h0
    show (if isHeaderLine (lines.getD (s + 1) "") then some (s + 1)
      else lastHeaderUpTo lines s) = some s
    rw [h0]
    simpa using lastHeaderUpTo_self lines s hs
  | k + 1, h => by
    have hk := h (k + 1) (Nat.le_refl _)
    have ih := lastHeaderUpTo_skip lines s hs k fun m hm => h m (by omega)
    have hidx : s + 1 + (k + 1) = (s + 1 + k) + 1 := by omega
    rw [hidx] at hk
    show (if isHeaderLine (lines.getD ((s + 1 + k) + 1) "") then some ((s + 1 + k) + 1)
      else lastHeaderUpTo lines (s + 1 + k)) = some s
    rw [hk]
    simpa using ih

theorem nextHeaderFrom_none (lines : List String) (start : Nat)
    (h : ∀ x ∈ lines.drop start, isHeaderLine x = false) :
    nextHeaderFrom lines start = lines.length := by
  simp [nextHeaderFrom, findFirstIdx_eq_none _ _ h]

/-- The scanning loops of `extractErrorSection` on a document of the shape
prefix block `A` (no line matching the marker) followed by a heading `h2`
(not matching) and a heading-free body containing the marker: the extracted
slice is the trimmed join of `h2` and the whole body. -/
theorem extractFromLines_spec (code : String) (A body2 : List String) (h2 : String)
    (hh2 : isHeaderLine h2 = true)
    (hAn : ∀ l ∈ A, lineMatchesCode code l = false)
    (hh2n : lineMatchesCode code h2 = false)
    (hb2head : ∀ l ∈ body2, isHeaderLine l = false)
    (hmatch : ∃ l ∈ body2, lineMatchesCode code l = true) :
    extractFromLines (A ++ h2 :: body2) code =
      some (jsTrim (String.intercalate "\n" (h2 :: body2))) := by
  obtain ⟨lm, hlmem, hlm⟩ := hmatch
  obtain ⟨k, hk⟩ := findFirstIdx_exists (lineMatchesCode code) body2 lm hlmem hlm
  have klt := findFirstIdx_lt_length _ _ _ hk
  have heq2 : A ++ h2 :: body2 = (A ++ [h2]) ++ body2 := by simp
  have hfull : ∀ l ∈ A ++ [h2], lineMatchesCode code l = false := by
    intro x hx
    rcases List.mem_append.mp hx with hmem | hmem
    · exact hAn x hmem
    · simp at hmem
      subst hmem
      exact hh2n
  have hfind : findFirstIdx (lineMatchesCode code) (A ++ h2 :: body2) =
      some (A.length + 1 + k) := by
    rw [heq2, findFirstIdx_append_none _ _ _ hfull, hk]
    simp
    omega
  have hgs : isHeaderLine ((A ++ h2 :: body2).getD A.length "") = true := by
    rw [List.getD_append_right _ _ _ _ (Nat.le_refl _)]
    simpa using hh2
  have hgm : ∀ m, m ≤ k → isHeaderLine ((A ++ h2 :: body2).getD (A.length + 1 + m) "") = false := by
    intro m hm
    rw [List.getD_append_right _ _ _ _ (by omega : A.length ≤ A.length + 1 + m)]
    have hidx : A.length + 1 + m - A.length = m + 1 := by omega
    rw [hidx]
    have hmb : m < body2.length := by omega
    have hcons : (h2 :: body2).getD (m + 1) "" = body2.getD m "" := rfl
    rw [hcons, List.getD_eq_getElem _ _ hmb]
    exact hb2head _ (List.getElem_mem hmb)
  have hlast : lastHeaderUpTo (A ++ h2 :: body2) (A.length + 1 + k) = some A.length :=
    lastHeaderUpTo_skip _ _ hgs k hgm
  have hnext : nextHeaderFrom (A ++ h2 :: body2) (A.length + 1 + k + 1) =
      (A ++ h2 :: body2).length := by
    apply nextHeaderFrom_none
    intro x hx
    rw [heq2] at hx
    rw [(by simp; omega : A.length + 1 + k + 1 = (A ++ [h2]).length + (k + 1)),
      List.drop_append] at hx
    exact hb2head x (List.mem_of_mem_drop hx)
  have hslice : (((A ++ h2 :: body2).take (A ++ h2 :: body2).length).drop A.length) =
      h2 :: body2 := by
    rw [List.take_length, List.drop_left]
  simp only [extractFromLines, hfind, hlast, hnext, hslice]

/-- C8: for a markdown document splitting into a prefix, a first level-3
section `h1`/`body1` free of the requested marker, and a second level-3
section `h2`/`body2` whose body contains the marker `(Code: 11010)` and no
further heading, requesting error code 11010 returns exactly the trimmed
span from `h2` to the end of the document, and the returned URL carries the
code's anchor; requesting a code whose marker is absent anywhere, or
requesting no error code, returns the full document. -/
theorem help_section_extraction (content : String) (pre body1 body2 : List String)
    (h1 h2 : String)
    (hsplit : splitNl content = pre ++ h1 :: body1 ++ h2 :: body2)
    (hh1 : isHeaderLine h1 = true) (hh2 : isHeaderLine h2 = true)
    (hpre : ∀ l ∈ pre, lineMatchesCode "11010" l = false)
    (hh1n : lineMatchesCode "11010" h1 = false)
    (hb1 : ∀ l ∈ body1, lineMatchesCode "11010" l = false)
    (hh2n : lineMatchesCode "11010" h2 = false)
    (hb2head : ∀ l ∈ body2, isHeaderLine l = false)
    (hmatch : ∃ l ∈ body2, lineMatchesCode "11010" l = true) :
    extractErrorSection content "11010" =
      some (jsTrim (String.intercalate "\n" (h2 :: body2))) ∧
    getErrorHelp (.ok content) ⟨some "11010", none⟩ =
      .ok ⟨jsTrim (String.intercalate "\n" (h2 :: body2)),
        some "https://adstxt-manager.jp/help/en/warnings.md#missing-fields"⟩ ∧
    (∀ code, (∀ l ∈ splitNl content, lineMatchesCode code l = false) →
      extractErrorSection content code = none) ∧
    (∀ code, code ≠ "" → (∀ l ∈ splitNl content, lineMatchesCode code l = false) →
      getErrorHelp (.ok content) ⟨some code, none⟩ = .ok ⟨content, none⟩) ∧
    getErrorHelp (.ok content) ⟨none, none⟩ = .ok ⟨content, none⟩ := by
  have hAssoc : pre ++ h1 :: body1 ++ h2 :: body2 =
      (pre ++ h1 :: body1) ++ h2 :: body2 := by simp
  have hAn : ∀ l ∈ pre ++ h1 :: body1, lineMatchesCode "11010" l = false := by
    intro x hx
    rcases List.mem_append.mp hx with hmem | hmem
    · exact hpre x hmem
    · rcases List.mem_cons.mp hmem with rfl | hmem
      · exact hh1n
      · exact hb1 x hmem
  have hmain : extractErrorSection content "11010" =
      some (jsTrim (String.intercalate "\n" (h2 :: body2))) := by
    unfold extractErrorSection
    rw [hsplit, hAssoc]
    exact extractFromLines_spec "11010" _ body2 h2 hh2 hAn hh2n hb2head hmatch
  have hnone : ∀ code, (∀ l ∈ splitNl content, lineMatchesCode code l = false) →
      extractErrorSection content code = none := by
    intro code hcode
    unfold extractErrorSection
    simp [extractFromLines, findFirstIdx_eq_none _ _ hcode]
  have hanchor : getAnchorId "11010" = "missing-fields" := by decide
  refine ⟨hmain, ?_, hnone, ?_, ?_⟩
  · simp [getErrorHelp, parseErrorHelp, hmain, hanchor]
  · intro code hc hcode
    simp [getErrorHelp, parseErrorHelp, hc, hnone code hcode]
  · simp [getErrorHelp, parseErrorHelp]

/-- Witness for C8 at a concrete two-section document. -/
theorem help_section_extraction_witness :
    extractErrorSection
        "intro\n### Error A\nblah\n### Error B\nSome text (Code: 11010)\nmore" "11010" =
      some "### Error B\nSome text (Code: 11010)\nmore" ∧
    getErrorHelp
        (.ok "intro\n### Error A\nblah\n### Error B\nSome text (Code: 11010)\nmore")
        ⟨some "11010", none⟩ =
      .ok ⟨"### Error B\nSome text (Code: 11010)\nmore",
        some "https://adstxt-manager.jp/help/en/warnings.md#missing-fields"⟩ ∧
    extractErrorSection
        "intro\n### Error A\nblah\n### Error B\nSome text (Code: 11010)\nmore" "99999" = none ∧
    getErrorHelp
        (.ok "intro\n### Error A\nblah\n### Error B\nSome text (Code: 11010)\nmore")
        ⟨some "99999", none⟩ =
      .ok ⟨"intro\n### Error A\nblah\n### Error B\nSome text (Code: 11010)\nmore", none⟩ ∧
    getErrorHelp
        (.ok "intro\n### Error A\nblah\n### Error B\nSome text (Code: 11010)\nmore")
        ⟨none, none⟩ =
      .ok ⟨"intro\n### Error A\nblah\n### Error B\nSome text (Code: 11010)\nmore", none⟩ :=
  let app := help_section_extraction
    "intro\n### Error A\nblah\n### Error B\nSome text (Code: 11010)\nmore"
    ["intro"] ["blah"] ["Some text (Code: 11010)", "more"] "### Error A" "### Error B"
    (by decide) (by decide) (by decide) (by decide) (by decide) (by decide) (by decide)
    (by decide) (by decide)
  ⟨app.1, app.2.1, app.2.2.1 "99999" (by decide),
    app.2.2.2.1 "99999" (by decide) (by decide), app.2.2.2.2⟩

/-- C10: when the underlying raw fetch fails, `getRaw` throws the normalized
`ApiError` as a plain object (not an `Error` instance), so `getErrorHelp`'s
catch block takes the non-`Error` branch and surfaces exactly
`Failed to fetch error help: Unknown error`, never the normalized code or
message. -/
theorem getErrorHelp_masks_fetch_failure (retries timeoutMs : Nat)
    (backend : Nat → CallResult String) (t : ThrownError)
    (h : (ApiClient.retryLoop backend retries 0).1 = .err t)
    (raw : ErrorHelpRaw) (p : ErrorHelpParsed) (hp : parseErrorHelp raw = .ok p) :
    getErrorHelp (ApiClient.getRaw retries timeoutMs backend) raw =
      .error (.wrapped "Failed to fetch error help: Unknown error") := by
  simp [ApiClient.getRaw, h, getErrorHelp, hp, caughtMessage]

/-- Witness for C10 at a concrete timed-out fetch. -/
theorem getErrorHelp_masks_fetch_failure_witness :
    getErrorHelp
      (ApiClient.getRaw 0 30000
        (fun _ => .err (.axios ⟨none, some "ECONNABORTED", "timeout of 30000ms exceeded"⟩)))
      ⟨none, none⟩ =
      .error (.wrapped "Failed to fetch error help: Unknown error") :=
  getErrorHelp_masks_fetch_failure 0 30000
    (fun _ => .err (.axios ⟨none, some "ECONNABORTED", "timeout of 30000ms exceeded"⟩))
    (.axios ⟨none, some "ECONNABORTED", "timeout of 30000ms exceeded"⟩) rfl
    ⟨none, none⟩ ⟨none, "en"⟩ rfl

end AdstxtMcp
